import Mathlib

/-
Shallow embedding of `src/STM/test_LoRaWAN/lorawan/LoRaMac-node/src/apps/LoRaMac/classB/SKiM980A/main.c`.

The application is the LoRaMac classB demo: a top-level device state machine
(`main`'s switch), a transmit scheduler (`PrepareTxFrame` / `SendFrame`), a
join manager (`JoinNetwork`), and the MAC callback surface (`McpsConfirm`,
`McpsIndication`, `MlmeConfirm`, `MlmeIndication`, `OnTxNextPacketTimerEvent`,
`OnMacProcessNotify`).  The MAC engine, board, timers and LEDs are external
collaborators; their observable results (request statuses, MIB reads, random
draws, downlink contents) enter the model as oracle inputs carried by events.

Build configuration embedded (as compiled by this source file):
  USE_BEACON_TIMING undefined  -> the DEVICE_STATE_REQ_DEVICE_TIME branch,
  OVER_THE_AIR_ACTIVATION == 1 -> the JoinNetwork path in DEVICE_STATE_JOIN,
  LORAWAN_CONFIRMED_MSG_ON = false, LORAWAN_APP_PORT = 3, LORAWAN_ADR_ON = 1,
  LORAWAN_APP_DATA_MAX_SIZE = 242, APP_TX_DUTYCYCLE = 30000,
  APP_TX_DUTYCYCLE_RND = 5000.

Machine integers: uint8 fields are Nat kept below 256 by the source's own
assignments (truncating writes are modelled with % 256), the uint16
DownLinkCounter is Nat with increments taken % 65536, timer durations are Int.
-/

/-- The `eDeviceState` enumeration of main.c (lines 191-204). -/
inductive DeviceStateE where
  | RESTORE
  | START
  | JOIN
  | SEND
  | REQ_DEVICE_TIME
  | REQ_PINGSLOT_ACK
  | REQ_BEACON_TIMING
  | BEACON_ACQUISITION
  | SWITCH_CLASS
  | CYCLE
  | SLEEP
  deriving DecidableEq, Repr

/-- `LoRaMacStatus_t` return codes, abridged to the values the application's
control flow distinguishes: OK, the duty-cycle-restricted rejection (which is
only printed), and a representative of every other non-OK code. -/
inductive LoRaMacStatus where
  | OK
  | DUTYCYCLE_RESTRICTED
  | BUSY
  deriving DecidableEq, Repr

/-- `LoRaMacEventInfoStatus_t`, abridged to the values the application's
control flow distinguishes (OK versus everything else; the beacon codes are
only used to drive LED timers). -/
inductive EventInfoStatus where
  | OK
  | ERROR
  | BEACON_LOCKED
  | BEACON_LOST_S
  | JOIN_FAIL
  deriving DecidableEq, Repr

/-- The MLME request kinds whose confirmations `MlmeConfirm` dispatches on. -/
inductive MlmeKind where
  | JOIN
  | LINK_CHECK
  | DEVICE_TIME
  | BEACON_TIMING
  | BEACON_ACQUISITION
  | PING_SLOT_INFO
  deriving DecidableEq, Repr

/-- The MLME indication kinds `MlmeIndication` dispatches on. -/
inductive MlmeIndKind where
  | SCHEDULE_UPLINK
  | BEACON_LOST
  | BEACON
  deriving DecidableEq, Repr

/-- The `ComplianceTest_s` global struct (lines 209-221).  The
`AppDataBuffer` pointer field of the C struct aliases the global
`AppDataBuffer` array and is represented by that global itself. -/
structure ComplianceTest_s where
  Running : Bool
  State : Nat
  IsTxConfirmed : Bool
  AppPort : Nat
  AppDataSize : Nat
  DownLinkCounter : Nat
  LinkCheck : Bool
  DemodMargin : Nat
  NbGateways : Nat
  deriving DecidableEq, Repr

/-- The mutable globals of main.c that the state machine and the callbacks
share, plus shadows of the two MIB parameters the application itself writes
and reads about (device class as 0=A/1=B/2=C, and the ADR enable flag). -/
structure DeviceCtx where
  DeviceState : DeviceStateE
  WakeUpState : DeviceStateE
  NextTx : Bool
  IsMacProcessPending : Nat
  AppPort : Nat
  AppDataSize : Nat
  AppDataSizeBackup : Nat
  AppDataBuffer : List Nat
  IsTxConfirmed : Bool
  AppLedStateOn : Bool
  TxDutyCycleTime : Int
  ComplianceTest : ComplianceTest_s
  deviceClass : Nat
  adrEnabled : Bool
  deriving DecidableEq, Repr

/-- Oracle inputs consumed by one main-loop iteration: the MIB read in
DEVICE_STATE_START, the status of each issued MAC request, the board
telemetry reads of `PrepareTxFrame` port 3, and the `randr` draw of
DEVICE_STATE_CYCLE. -/
structure MainOracle where
  mibStatus : LoRaMacStatus
  activationNone : Bool
  joinStatus : LoRaMacStatus
  mlmeStatus : LoRaMacStatus
  mcpsStatus : LoRaMacStatus
  poti : Nat
  vdd : Nat
  rnd : Int
  deriving DecidableEq, Repr

/-- Oracle inputs consumed by `OnTxNextPacketTimerEvent`: the
MIB_NETWORK_ACTIVATION read and, if a join is attempted, its status. -/
structure TimerOracle where
  mibStatus : LoRaMacStatus
  activationNone : Bool
  joinStatus : LoRaMacStatus
  deriving DecidableEq, Repr

/-- `JoinNetwork` (lines 344-369): submit MLME_JOIN; on OK go to SLEEP,
otherwise (the duty-cycle-restricted wait time is only printed) go to CYCLE. -/
def JoinNetwork (status : LoRaMacStatus) (s : DeviceCtx) : DeviceCtx :=
  if status = LoRaMacStatus.OK then
    { s with DeviceState := DeviceStateE.SLEEP }
  else
    { s with DeviceState := DeviceStateE.CYCLE }

/-- `OnTxNextPacketTimerEvent` (lines 492-515): stop the timer, read
MIB_NETWORK_ACTIVATION; if unjoined, try to join again, otherwise resume at
`WakeUpState` with `NextTx = true`. -/
def OnTxNextPacketTimerEvent (o : TimerOracle) (s : DeviceCtx) : DeviceCtx :=
  if o.mibStatus = LoRaMacStatus.OK then
    if o.activationNone then
      JoinNetwork o.joinStatus s
    else
      { s with DeviceState := s.WakeUpState, NextTx := true }
  else
    s

/-- `PrepareTxFrame` (lines 374-425).  Port 3 writes the 4-byte telemetry
payload; port 224 is governed by the compliance-test state: a latched
link-check result produces `[5, DemodMargin, NbGateways]` and returns to
step 1, otherwise step 4 returns to step 1 and step 1 echoes the 16-bit
downlink counter big-endian. -/
def PrepareTxFrame (o : MainOracle) (port : Nat) (s : DeviceCtx) : DeviceCtx :=
  if port = 3 then
    { s with AppDataSize := 4, AppDataSizeBackup := 4,
             AppDataBuffer :=
               ((((s.AppDataBuffer.set 0 (if s.AppLedStateOn then 1 else 0)).set 1
                  (o.poti % 256)).set 2 ((o.vdd >>> 8) % 256)).set 3 (o.vdd % 256)) }
  else if port = 224 then
    if s.ComplianceTest.LinkCheck = true then
      { s with AppDataSize := 3,
               AppDataBuffer :=
                 ((s.AppDataBuffer.set 0 5).set 1 s.ComplianceTest.DemodMargin).set 2
                   s.ComplianceTest.NbGateways,
               ComplianceTest := { s.ComplianceTest with LinkCheck := false, State := 1 } }
    else
      if s.ComplianceTest.State = 4 then
        { s with ComplianceTest := { s.ComplianceTest with State := 1 } }
      else if s.ComplianceTest.State = 1 then
        { s with AppDataSize := 2,
                 AppDataBuffer :=
                   (s.AppDataBuffer.set 0 (s.ComplianceTest.DownLinkCounter >>> 8)).set 1
                     (s.ComplianceTest.DownLinkCounter % 256) }
      else
        s
  else
    s

/-- `SendFrame` (lines 432-487) return value: false when `LoRaMacMcpsRequest`
returned OK (frame accepted), true otherwise (retry needed).  Which frame is
submitted (empty flush / unconfirmed / confirmed) only affects the MAC
engine, an external collaborator. -/
def SendFrame (o : MainOracle) : Bool :=
  decide (o.mcpsStatus ≠ LoRaMacStatus.OK)

/-- The shared compliance-test exit assignments of `McpsIndication` case 0
(lines 762-776) and case 6 (lines 806-825): restore confirmed-mode to the
compile-time default, port to LORAWAN_APP_PORT, payload size from the backup,
reset the downlink counter, stop the engine and restore the ADR setting. -/
def exitComplianceMode (s : DeviceCtx) : DeviceCtx :=
  { s with IsTxConfirmed := false,
           AppPort := 3,
           AppDataSize := s.AppDataSizeBackup,
           ComplianceTest := { s.ComplianceTest with DownLinkCounter := 0, Running := false },
           adrEnabled := true }

/-- The echo-back write loop of `McpsIndication` case 4 (lines 791-795):
`for (i = 1; i < stop; i++) AppDataBuffer[i] = Buffer[i] + 1;` with uint8
truncation of the incremented byte. -/
def echoLoop (rx : List Nat) (stop : Nat) (i : Nat) (b : List Nat) : List Nat :=
  if i < stop then
    echoLoop rx stop (i + 1) (b.set i ((rx.getD i 0 + 1) % 256))
  else
    b
termination_by stop - i
decreasing_by omega

/-- The `switch( ComplianceTest.State )` of `McpsIndication` lines 760-900,
applied after the first received byte `st` has been stored into
`ComplianceTest.State`.  Steps 5 (link check), 7 (TXCW) and the MLME
submissions of steps 8/10/11 only act on the external MAC engine. -/
def complianceCommand (st : Nat) (buf : List Nat) (joinStatus : LoRaMacStatus)
    (s1 : DeviceCtx) : DeviceCtx :=
  if st = 0 then
    exitComplianceMode s1
  else if st = 1 then
    { s1 with AppDataSize := 2 }
  else if st = 2 then
    { s1 with IsTxConfirmed := true,
              ComplianceTest := { s1.ComplianceTest with State := 1 } }
  else if st = 3 then
    { s1 with IsTxConfirmed := false,
              ComplianceTest := { s1.ComplianceTest with State := 1 } }
  else if st = 4 then
    { s1 with AppDataSize := buf.length,
              AppDataBuffer := echoLoop buf (min buf.length 242) 1 (s1.AppDataBuffer.set 0 4) }
  else if st = 5 then
    s1
  else if st = 6 then
    JoinNetwork joinStatus (exitComplianceMode s1)
  else if st = 7 then
    { s1 with ComplianceTest := { s1.ComplianceTest with State := 1 } }
  else if st = 8 then
    { s1 with WakeUpState := DeviceStateE.SEND, DeviceState := DeviceStateE.SEND }
  else if st = 9 then
    { s1 with deviceClass := buf.getD 1 0, DeviceState := DeviceStateE.SEND }
  else if st = 10 then
    { s1 with WakeUpState := DeviceStateE.SEND, DeviceState := DeviceStateE.SEND }
  else if st = 11 then
    { s1 with WakeUpState := DeviceStateE.SEND, DeviceState := DeviceStateE.SEND }
  else
    s1

/-- The port-224 downlink dispatch of `McpsIndication` (lines 726-901).
While inactive, only the exact 4-byte all-0x01 enable pattern does anything;
while active, the first byte is stored into `ComplianceTest.State` and then
switched on. -/
def complianceDownlink (buf : List Nat) (joinStatus : LoRaMacStatus)
    (s : DeviceCtx) : DeviceCtx :=
  if s.ComplianceTest.Running = false then
    if buf.length = 4 ∧ buf.getD 0 0 = 1 ∧ buf.getD 1 0 = 1 ∧ buf.getD 2 0 = 1 ∧
        buf.getD 3 0 = 1 then
      { s with IsTxConfirmed := false,
               AppPort := 224,
               AppDataSizeBackup := s.AppDataSize,
               AppDataSize := 2,
               ComplianceTest := { s.ComplianceTest with
                 DownLinkCounter := 0, LinkCheck := false, DemodMargin := 0,
                 NbGateways := 0, Running := true, State := 1 },
               adrEnabled := true }
    else
      s
  else
    complianceCommand (buf.getD 0 0) buf joinStatus
      { s with ComplianceTest := { s.ComplianceTest with State := buf.getD 0 0 } }

/-- `McpsIndication` lines 697-702: when the server signals pending data,
immediately re-run the retry-timer handler to schedule an uplink. -/
def framePendingPhase (framePending : Bool) (o : TimerOracle) (s : DeviceCtx) : DeviceCtx :=
  if framePending then OnTxNextPacketTimerEvent o s else s

/-- `McpsIndication` lines 709-712: while the compliance engine runs, every
(OK) indication increments its 16-bit downlink counter. -/
def downlinkCounterPhase (s : DeviceCtx) : DeviceCtx :=
  if s.ComplianceTest.Running = true then
    { s with ComplianceTest := { s.ComplianceTest with
        DownLinkCounter := (s.ComplianceTest.DownLinkCounter + 1) % 65536 } }
  else
    s

/-- `McpsIndication` lines 714-906: dispatch received data by port (1/2 set
the application LED from a single byte, 224 drives the compliance engine). -/
def rxDataPhase (rxData : Bool) (port : Nat) (buf : List Nat)
    (joinStatus : LoRaMacStatus) (s : DeviceCtx) : DeviceCtx :=
  if rxData then
    if port = 1 ∨ port = 2 then
      if buf.length = 1 then
        { s with AppLedStateOn := decide (buf.getD 0 0 % 2 = 1) }
      else
        s
    else if port = 224 then
      complianceDownlink buf joinStatus s
    else
      s
  else
    s

/-- `McpsIndication` (lines 662-932): drop non-OK indications, then run the
pending-frame, downlink-counter and received-data phases in source order. -/
def McpsIndicationStep (status : EventInfoStatus) (framePending rxData : Bool)
    (port : Nat) (buf : List Nat) (o : TimerOracle) (joinStatus : LoRaMacStatus)
    (s : DeviceCtx) : DeviceCtx :=
  if status ≠ EventInfoStatus.OK then
    s
  else
    rxDataPhase rxData port buf joinStatus
      (downlinkCounterPhase (framePendingPhase framePending o s))

/-- `MlmeConfirm` (lines 940-1056).  Join OK advances to REQ_DEVICE_TIME
(USE_BEACON_TIMING undefined), join failure re-invokes `JoinNetwork`.
Link-check OK while the compliance engine runs latches margin / gateway
count.  Device-time and beacon-timing confirmations unconditionally arm
WakeUpState = SEND, DeviceState = BEACON_ACQUISITION, NextTx = true.
Beacon-acquisition OK arms REQ_PINGSLOT_ACK, failure falls back to
REQ_DEVICE_TIME.  Ping-slot-info OK switches to class B and arms SEND,
failure retries REQ_PINGSLOT_ACK. -/
def MlmeConfirmStep (kind : MlmeKind) (status : EventInfoStatus)
    (margin gateways : Nat) (joinStatus : LoRaMacStatus) (s : DeviceCtx) : DeviceCtx :=
  match kind with
  | MlmeKind.JOIN =>
      if status = EventInfoStatus.OK then
        { s with DeviceState := DeviceStateE.REQ_DEVICE_TIME }
      else
        JoinNetwork joinStatus s
  | MlmeKind.LINK_CHECK =>
      if status = EventInfoStatus.OK then
        if s.ComplianceTest.Running = true then
          { s with ComplianceTest := { s.ComplianceTest with
              LinkCheck := true, DemodMargin := margin, NbGateways := gateways } }
        else
          s
      else
        s
  | MlmeKind.DEVICE_TIME =>
      { s with WakeUpState := DeviceStateE.SEND,
               DeviceState := DeviceStateE.BEACON_ACQUISITION, NextTx := true }
  | MlmeKind.BEACON_TIMING =>
      { s with WakeUpState := DeviceStateE.SEND,
               DeviceState := DeviceStateE.BEACON_ACQUISITION, NextTx := true }
  | MlmeKind.BEACON_ACQUISITION =>
      if status = EventInfoStatus.OK then
        { s with WakeUpState := DeviceStateE.REQ_PINGSLOT_ACK }
      else
        { s with WakeUpState := DeviceStateE.REQ_DEVICE_TIME }
  | MlmeKind.PING_SLOT_INFO =>
      if status = EventInfoStatus.OK then
        { s with deviceClass := 1, WakeUpState := DeviceStateE.SEND,
                 DeviceState := DeviceStateE.SEND, NextTx := true }
      else
        { s with WakeUpState := DeviceStateE.REQ_PINGSLOT_ACK }

/-- `MlmeIndication` (lines 1063-1126): a scheduled-uplink request re-runs
the retry-timer handler; beacon-lost reverts to class A and re-arms the
device-time acquisition as WakeUpState; beacon received/not-received only
drives LED timers. -/
def MlmeIndicationStep (kind : MlmeIndKind) (o : TimerOracle) (s : DeviceCtx) : DeviceCtx :=
  match kind with
  | MlmeIndKind.SCHEDULE_UPLINK => OnTxNextPacketTimerEvent o s
  | MlmeIndKind.BEACON_LOST =>
      { s with deviceClass := 0, WakeUpState := DeviceStateE.REQ_DEVICE_TIME }
  | MlmeIndKind.BEACON => s

/-- One iteration of `main`'s state-machine switch (lines 1284-1550), for the
current `DeviceState`.  External effects (NVM, timers, MIB writes, MLME/MCPS
submissions) are represented through the oracle and the shadowed fields. -/
def mainStep (o : MainOracle) (s : DeviceCtx) : DeviceCtx :=
  match s.DeviceState with
  | DeviceStateE.RESTORE =>
      { s with DeviceState := DeviceStateE.START }
  | DeviceStateE.START =>
      let s1 : DeviceCtx := { s with adrEnabled := true }
      if o.mibStatus = LoRaMacStatus.OK then
        if o.activationNone then
          { s1 with DeviceState := DeviceStateE.JOIN }
        else
          { s1 with DeviceState := DeviceStateE.SEND, NextTx := true }
      else
        s1
  | DeviceStateE.JOIN =>
      JoinNetwork o.joinStatus s
  | DeviceStateE.REQ_DEVICE_TIME =>
      if s.NextTx = true then
        if o.mlmeStatus = LoRaMacStatus.OK then
          { s with WakeUpState := DeviceStateE.SEND, DeviceState := DeviceStateE.SEND }
        else
          { s with DeviceState := DeviceStateE.SEND }
      else
        { s with DeviceState := DeviceStateE.SEND }
  | DeviceStateE.REQ_BEACON_TIMING =>
      if s.NextTx = true then
        if o.mlmeStatus = LoRaMacStatus.OK then
          { s with WakeUpState := DeviceStateE.SEND, DeviceState := DeviceStateE.SEND }
        else
          { s with DeviceState := DeviceStateE.SEND }
      else
        { s with DeviceState := DeviceStateE.SEND }
  | DeviceStateE.BEACON_ACQUISITION =>
      if s.NextTx = true then
        { s with NextTx := false, DeviceState := DeviceStateE.SEND }
      else
        { s with DeviceState := DeviceStateE.SEND }
  | DeviceStateE.REQ_PINGSLOT_ACK =>
      if s.NextTx = true then
        if o.mlmeStatus = LoRaMacStatus.OK then
          { s with WakeUpState := DeviceStateE.SEND, DeviceState := DeviceStateE.SEND }
        else
          { s with DeviceState := DeviceStateE.SEND }
      else
        { s with DeviceState := DeviceStateE.SEND }
  | DeviceStateE.SEND =>
      if s.NextTx = true then
        let s1 := PrepareTxFrame o s.AppPort s
        { s1 with NextTx := SendFrame o, DeviceState := DeviceStateE.CYCLE }
      else
        { s with DeviceState := DeviceStateE.CYCLE }
  | DeviceStateE.CYCLE =>
      { s with DeviceState := DeviceStateE.SLEEP,
               TxDutyCycleTime :=
                 if s.ComplianceTest.Running = true then 5000 else 30000 + o.rnd }
  | DeviceStateE.SLEEP =>
      if s.IsMacProcessPending = 1 then
        { s with IsMacProcessPending := 0 }
      else
        s
  | DeviceStateE.SWITCH_CLASS =>
      { s with DeviceState := DeviceStateE.START }

/-- The events that can act on the shared device context: one main-loop
iteration, the transmit retry timer, and the four MAC callback surfaces plus
the processing-needed notification.  Each carries the oracle inputs the
corresponding C code reads from its external collaborators. -/
inductive Event where
  | main (o : MainOracle)
  | txTimer (o : TimerOracle)
  | macNotify
  | mcpsConf (status : EventInfoStatus)
  | mcpsInd (status : EventInfoStatus) (framePending rxData : Bool)
      (port : Nat) (buf : List Nat) (o : TimerOracle) (joinStatus : LoRaMacStatus)
  | mlmeConf (kind : MlmeKind) (status : EventInfoStatus)
      (margin gateways : Nat) (joinStatus : LoRaMacStatus)
  | mlmeInd (kind : MlmeIndKind) (o : TimerOracle)
  deriving DecidableEq, Repr

/-- The effect of one event on the shared device context.  `McpsConfirm` and
`OnMacProcessNotify` appear here too: the former only drives LEDs and
diagnostics, the latter sets the pending flag (line 1130). -/
def step (e : Event) (s : DeviceCtx) : DeviceCtx :=
  match e with
  | Event.main o => mainStep o s
  | Event.txTimer o => OnTxNextPacketTimerEvent o s
  | Event.macNotify => { s with IsMacProcessPending := 1 }
  | Event.mcpsConf _ => s
  | Event.mcpsInd status fp rx port buf o j => McpsIndicationStep status fp rx port buf o j s
  | Event.mlmeConf k status m g j => MlmeConfirmStep k status m g j s
  | Event.mlmeInd k o => MlmeIndicationStep k o s

/-- The global state right after `main`'s initialization (static initializers
of lines 123-186 together with lines 1269-1270: `DeviceState = RESTORE;
WakeUpState = START;`).  The zero-initialized compliance struct is inert. -/
def initState : DeviceCtx :=
  { DeviceState := DeviceStateE.RESTORE,
    WakeUpState := DeviceStateE.START,
    NextTx := true,
    IsMacProcessPending := 0,
    AppPort := 3,
    AppDataSize := 4,
    AppDataSizeBackup := 4,
    AppDataBuffer := List.replicate 242 0,
    IsTxConfirmed := false,
    AppLedStateOn := false,
    TxDutyCycleTime := 0,
    ComplianceTest :=
      { Running := false, State := 0, IsTxConfirmed := false, AppPort := 0,
        AppDataSize := 0, DownLinkCounter := 0, LinkCheck := false,
        DemodMargin := 0, NbGateways := 0 },
    deviceClass := 0,
    adrEnabled := true }

/-- Run a list of events from a state, oldest first. -/
def runEvents (s : DeviceCtx) (evs : List Event) : DeviceCtx :=
  evs.foldl (fun t e => step e t) s

/-- A state is reachable when some event sequence produces it from the
initialized state. -/
def Reachable (s : DeviceCtx) : Prop :=
  ∃ evs : List Event, runEvents initState evs = s

/-- Modelled from the spec: the `randr( -APP_TX_DUTYCYCLE_RND,
APP_TX_DUTYCYCLE_RND )` draw of DEVICE_STATE_CYCLE (line 1516).  `randr`
itself lives in the board utilities, outside the provided sources; the spec
describes it as a symmetric random jitter window of ± 5000 ms, so the drawn
value is an integer in [-5000, 5000]. -/
def randrJitterDraw (r : Int) : Prop :=
  -5000 ≤ r ∧ r ≤ 5000

/-- The compliance engine stays running across each step of an event list
(evaluated left to right). -/
def RunsThrough : DeviceCtx → List Event → Prop
  | _, [] => True
  | s, e :: es =>
      (step e s).ComplianceTest.Running = true ∧ RunsThrough (step e s) es

/-- A fixed timer oracle for concrete runs: MIB read succeeds and the device
is already activated. -/
def timer0 : TimerOracle :=
  { mibStatus := LoRaMacStatus.OK, activationNone := false,
    joinStatus := LoRaMacStatus.OK }

/-- A fixed main-loop oracle for concrete runs: every request accepted,
telemetry zero, random draw 4999. -/
def oracleR : MainOracle :=
  { mibStatus := LoRaMacStatus.OK, activationNone := false,
    joinStatus := LoRaMacStatus.OK, mlmeStatus := LoRaMacStatus.OK,
    mcpsStatus := LoRaMacStatus.OK, poti := 0, vdd := 0, rnd := 4999 }

/-- The compliance-test enable downlink as a concrete event: 4 bytes of 0x01
on port 224 while no frame is pending. -/
def enterEv : Event :=
  Event.mcpsInd EventInfoStatus.OK false true 224 [1, 1, 1, 1] timer0
    LoRaMacStatus.OK

/-- The state right after the enable downlink is processed from the initial
state: the compliance engine is running at step 1. -/
def enteredState : DeviceCtx :=
  step enterEv initState

/-- A concrete state whose next main-loop iteration executes the CYCLE step. -/
def cycleState : DeviceCtx :=
  { initState with DeviceState := DeviceStateE.CYCLE }

/-- A concrete 243-byte port-224 downlink payload whose first byte selects
compliance step 4. -/
def c3buf : List Nat :=
  4 :: List.replicate 242 0

/-- A concrete link-check confirmation with margin 7 and 2 gateways. -/
def lcEv : Event :=
  Event.mlmeConf MlmeKind.LINK_CHECK EventInfoStatus.OK 7 2 LoRaMacStatus.OK

/-- A concrete reachable state: compliance running with a latched link-check
result (margin 7, 2 gateways). -/
def c3pre : DeviceCtx :=
  runEvents initState [enterEv, lcEv]

/-- The concrete step-4 downlink event carrying the 243-byte payload. -/
def c3ev : Event :=
  Event.mcpsInd EventInfoStatus.OK false true 224 c3buf timer0 LoRaMacStatus.OK

/-- The state after the 243-byte step-4 downlink is processed. -/
def c3post : DeviceCtx :=
  step c3ev c3pre

/-- Helper: reading an updated buffer cell. -/
theorem getD_set_eq_ite (l : List Nat) (i j v : Nat) :
    (l.set i v).getD j 0 = if i = j ∧ j < l.length then v else l.getD j 0 := by
  by_cases hj : j < l.length
  · have hj2 : j < (l.set i v).length := by simpa using hj
    rw [List.getD_eq_getElem _ _ hj2, List.getD_eq_getElem _ _ hj, List.getElem_set]
    by_cases hij : i = j <;> simp [hij, hj]
  · have hj1 : l.length ≤ j := Nat.le_of_not_lt hj
    have hj2 : (l.set i v).length ≤ j := by simpa using hj1
    rw [List.getD_eq_default _ _ hj2, List.getD_eq_default _ _ hj1]
    simp [hj]

/-- The echo-back loop preserves the buffer length. -/
theorem echoLoop_length (rx : List Nat) (stop i : Nat) (b : List Nat) :
    (echoLoop rx stop i b).length = b.length := by
  rw [echoLoop]
  split
  · rw [echoLoop_length rx stop (i + 1)]
    simp
  · rfl
termination_by stop - i
decreasing_by omega

/-- Cell-level description of the echo-back loop: cells i..stop-1 hold the
incremented received bytes, all other cells are untouched. -/
theorem echoLoop_getD (rx : List Nat) (stop i j : Nat) (b : List Nat)
    (hstop : stop ≤ b.length) :
    (echoLoop rx stop i b).getD j 0 =
      if i ≤ j ∧ j < stop then (rx.getD j 0 + 1) % 256 else b.getD j 0 := by
  rw [echoLoop]
  split
  · next hlt =>
    rw [echoLoop_getD rx stop (i + 1) j _ (by simpa using hstop)]
    rw [getD_set_eq_ite]
    by_cases hij : i = j
    · subst hij
      have hi : i < b.length := lt_of_lt_of_le hlt hstop
      simp [hi, hlt]
    · have hne : ¬(i = j ∧ j < b.length) := by
        intro hc
        exact hij hc.1
      rw [if_neg hne]
      by_cases hc : i ≤ j ∧ j < stop
      · have hc2 : i + 1 ≤ j ∧ j < stop := ⟨Nat.lt_of_le_of_ne hc.1 hij, hc.2⟩
        rw [if_pos hc2, if_pos hc]
      · have hc2 : ¬(i + 1 ≤ j ∧ j < stop) := by omega
        rw [if_neg hc2, if_neg hc]
  · next hge =>
    have hne : ¬(i ≤ j ∧ j < stop) := by omega
    rw [if_neg hne]
termination_by stop - i
decreasing_by omega

/-- Appending one event to a run. -/
theorem runEvents_append_one (s : DeviceCtx) (evs : List Event) (e : Event) :
    runEvents s (evs ++ [e]) = step e (runEvents s evs) := by
  unfold runEvents
  rw [List.foldl_append]
  rfl

/-- Reachability is preserved by a step. -/
theorem Reachable.ofStep {s : DeviceCtx} (h : Reachable s) (e : Event) :
    Reachable (step e s) := by
  obtain ⟨evs, hevs⟩ := h
  exact ⟨evs ++ [e], by rw [runEvents_append_one, hevs]⟩

/-- Reachability is preserved by a run. -/
theorem Reachable.ofRun {s : DeviceCtx} (h : Reachable s) (evs : List Event) :
    Reachable (runEvents s evs) := by
  induction evs generalizing s with
  | nil => exact h
  | cons e es ih => exact ih (h.ofStep e)

/-- Induction principle for reachable states. -/
theorem reachable_invariant {P : DeviceCtx → Prop} (h0 : P initState)
    (hstep : ∀ s e, P s → P (step e s)) : ∀ s, Reachable s → P s := by
  have aux : ∀ (evs : List Event) (t : DeviceCtx), P t → P (runEvents t evs) := by
    intro evs
    induction evs with
    | nil => exact fun t h => h
    | cons e es ih => exact fun t h => ih (step e t) (hstep t e h)
  rintro s ⟨evs, rfl⟩
  exact aux evs initState h0

/-- The inductive invariant of the shared device context: the payload buffer
keeps its 242-byte size, the 16-bit downlink counter stays in range, outside
a compliance session the mode/port pair is at its defaults, inside a session
the application port is 224, and WakeUpState is never RESTORE or JOIN. -/
def GoodCtx (s : DeviceCtx) : Prop :=
  s.AppDataBuffer.length = 242 ∧
  s.ComplianceTest.DownLinkCounter < 65536 ∧
  (s.ComplianceTest.Running = false → s.IsTxConfirmed = false ∧ s.AppPort = 3) ∧
  (s.ComplianceTest.Running = true → s.AppPort = 224) ∧
  s.WakeUpState ≠ DeviceStateE.RESTORE ∧ s.WakeUpState ≠ DeviceStateE.JOIN

/-- Transfer of the invariant along updates that leave its fields alone. -/
theorem goodCtx_congr {s t : DeviceCtx}
    (h1 : t.AppDataBuffer = s.AppDataBuffer) (h2 : t.ComplianceTest = s.ComplianceTest)
    (h3 : t.IsTxConfirmed = s.IsTxConfirmed) (h4 : t.AppPort = s.AppPort)
    (h5 : t.WakeUpState = s.WakeUpState) (h : GoodCtx s) : GoodCtx t := by
  unfold GoodCtx at h ⊢
  rw [h1, h2, h3, h4, h5]
  exact h

theorem goodCtx_joinNetwork {s : DeviceCtx} (j : LoRaMacStatus) (h : GoodCtx s) :
    GoodCtx (JoinNetwork j s) := by
  unfold JoinNetwork
  split <;> exact goodCtx_congr rfl rfl rfl rfl rfl h

theorem goodCtx_onTx {s : DeviceCtx} (o : TimerOracle) (h : GoodCtx s) :
    GoodCtx (OnTxNextPacketTimerEvent o s) := by
  unfold OnTxNextPacketTimerEvent
  split
  · split
    · exact goodCtx_joinNetwork _ h
    · exact goodCtx_congr rfl rfl rfl rfl rfl h
  · exact h


/-- Assemble the invariant for a state whose invariant-relevant fields agree
with those of a state already known good; WakeUpState may instead move to
one of the four resumption targets the source ever assigns. -/
theorem goodCtx_of_parts {s t : DeviceCtx} (h : GoodCtx s)
    (h1 : t.AppDataBuffer.length = s.AppDataBuffer.length)
    (h2r : t.ComplianceTest.Running = s.ComplianceTest.Running)
    (h2c : t.ComplianceTest.DownLinkCounter = s.ComplianceTest.DownLinkCounter)
    (h3 : t.IsTxConfirmed = s.IsTxConfirmed)
    (h4 : t.AppPort = s.AppPort)
    (h5 : t.WakeUpState = s.WakeUpState ∨ t.WakeUpState = DeviceStateE.SEND ∨
      t.WakeUpState = DeviceStateE.REQ_DEVICE_TIME ∨
      t.WakeUpState = DeviceStateE.REQ_BEACON_TIMING ∨
      t.WakeUpState = DeviceStateE.REQ_PINGSLOT_ACK) : GoodCtx t := by
  obtain ⟨g1, g2, g3, g4, g5, g6⟩ := h
  refine ⟨by rw [h1]; exact g1, by rw [h2c]; exact g2, ?_, ?_, ?_, ?_⟩
  · intro hr
    rw [h3, h4]
    exact g3 (by rw [← h2r]; exact hr)
  · intro hr
    rw [h4]
    exact g4 (by rw [← h2r]; exact hr)
  · rcases h5 with h5 | h5 | h5 | h5 | h5 <;> rw [h5]
    · exact g5
    all_goals decide
  · rcases h5 with h5 | h5 | h5 | h5 | h5 <;> rw [h5]
    · exact g6
    all_goals decide

/-- Assemble the invariant for an update made while the compliance engine is
running and keeps it running (the confirmed-mode flag may change freely). -/
theorem goodCtx_running_parts {s t : DeviceCtx} (h : GoodCtx s)
    (hrun : s.ComplianceTest.Running = true)
    (h1 : t.AppDataBuffer.length = s.AppDataBuffer.length)
    (h2r : t.ComplianceTest.Running = true)
    (h2c : t.ComplianceTest.DownLinkCounter = s.ComplianceTest.DownLinkCounter)
    (h4 : t.AppPort = s.AppPort)
    (h5 : t.WakeUpState = s.WakeUpState ∨ t.WakeUpState = DeviceStateE.SEND) :
    GoodCtx t := by
  obtain ⟨g1, g2, g3, g4, g5, g6⟩ := h
  refine ⟨by rw [h1]; exact g1, by rw [h2c]; exact g2, ?_, ?_, ?_, ?_⟩
  · intro hr
    rw [h2r] at hr
    cases hr
  · intro _
    rw [h4]
    exact g4 hrun
  · rcases h5 with h5 | h5 <;> rw [h5]
    · exact g5
    · decide
  · rcases h5 with h5 | h5 <;> rw [h5]
    · exact g6
    · decide

theorem goodCtx_exitCompliance {s : DeviceCtx} (h : GoodCtx s) :
    GoodCtx (exitComplianceMode s) := by
  obtain ⟨g1, g2, g3, g4, g5, g6⟩ := h
  refine ⟨g1, by show (0:Nat) < 65536; decide, fun _ => ⟨rfl, rfl⟩, ?_, g5, g6⟩
  intro hr
  cases hr

set_option maxHeartbeats 1600000 in
theorem goodCtx_complianceCommand {s1 : DeviceCtx} (st : Nat) (buf : List Nat)
    (j : LoRaMacStatus) (hrun : s1.ComplianceTest.Running = true) (h : GoodCtx s1) :
    GoodCtx (complianceCommand st buf j s1) := by
  unfold complianceCommand
  by_cases h0 : st = 0
  · rw [if_pos h0]
    exact goodCtx_exitCompliance h
  rw [if_neg h0]
  by_cases h1 : st = 1
  · rw [if_pos h1]
    exact goodCtx_of_parts h (by rfl) (by rfl) (by rfl) (by rfl) (by rfl)
      (by exact Or.inl rfl)
  rw [if_neg h1]
  by_cases h2 : st = 2
  · rw [if_pos h2]
    exact goodCtx_running_parts h hrun (by rfl) (by exact hrun) (by rfl) (by rfl)
      (by exact Or.inl rfl)
  rw [if_neg h2]
  by_cases h3 : st = 3
  · rw [if_pos h3]
    exact goodCtx_running_parts h hrun (by rfl) (by exact hrun) (by rfl) (by rfl)
      (by exact Or.inl rfl)
  rw [if_neg h3]
  by_cases h4 : st = 4
  · rw [if_pos h4]
    exact goodCtx_of_parts h (by simp [echoLoop_length]) (by rfl) (by rfl) (by rfl)
      (by rfl) (by exact Or.inl rfl)
  rw [if_neg h4]
  by_cases h5 : st = 5
  · rw [if_pos h5]
    exact h
  rw [if_neg h5]
  by_cases h6 : st = 6
  · rw [if_pos h6]
    exact goodCtx_joinNetwork _ (goodCtx_exitCompliance h)
  rw [if_neg h6]
  by_cases h7 : st = 7
  · rw [if_pos h7]
    exact goodCtx_of_parts h (by rfl) (by rfl) (by rfl) (by rfl) (by rfl)
      (by exact Or.inl rfl)
  rw [if_neg h7]
  by_cases h8 : st = 8
  · rw [if_pos h8]
    exact goodCtx_of_parts h (by rfl) (by rfl) (by rfl) (by rfl) (by rfl)
      (by exact Or.inr (Or.inl rfl))
  rw [if_neg h8]
  by_cases h9 : st = 9
  · rw [if_pos h9]
    exact goodCtx_of_parts h (by rfl) (by rfl) (by rfl) (by rfl) (by rfl)
      (by exact Or.inl rfl)
  rw [if_neg h9]
  by_cases h10 : st = 10
  · rw [if_pos h10]
    exact goodCtx_of_parts h (by rfl) (by rfl) (by rfl) (by rfl) (by rfl)
      (by exact Or.inr (Or.inl rfl))
  rw [if_neg h10]
  by_cases h11 : st = 11
  · rw [if_pos h11]
    exact goodCtx_of_parts h (by rfl) (by rfl) (by rfl) (by rfl) (by rfl)
      (by exact Or.inr (Or.inl rfl))
  rw [if_neg h11]
  exact h

set_option maxHeartbeats 1600000 in
theorem goodCtx_complianceDownlink {s : DeviceCtx} (buf : List Nat)
    (j : LoRaMacStatus) (h : GoodCtx s) : GoodCtx (complianceDownlink buf j s) := by
  unfold complianceDownlink
  split_ifs with hrun hpat
  · obtain ⟨g1, g2, g3, g4, g5, g6⟩ := h
    refine ⟨g1, by show (0:Nat) < 65536; decide, ?_, fun _ => rfl, g5, g6⟩
    intro hr
    cases hr
  · exact h
  · rw [Bool.not_eq_false] at hrun
    exact goodCtx_complianceCommand _ _ _ (by exact hrun)
      (goodCtx_of_parts h (by rfl) (by exact hrun.trans hrun.symm) (by rfl) (by rfl)
        (by rfl) (by exact Or.inl rfl))

set_option maxHeartbeats 1600000 in
theorem goodCtx_prepare {s : DeviceCtx} (o : MainOracle) (p : Nat) (h : GoodCtx s) :
    GoodCtx (PrepareTxFrame o p s) := by
  unfold PrepareTxFrame
  split_ifs <;>
    first
      | exact h
      | exact goodCtx_of_parts h (by simp) (by rfl) (by rfl) (by rfl) (by rfl)
          (by exact Or.inl rfl)

theorem goodCtx_framePendingPhase {s : DeviceCtx} (fp : Bool) (o : TimerOracle)
    (h : GoodCtx s) : GoodCtx (framePendingPhase fp o s) := by
  unfold framePendingPhase
  split
  · exact goodCtx_onTx o h
  · exact h

theorem goodCtx_downlinkCounterPhase {s : DeviceCtx} (h : GoodCtx s) :
    GoodCtx (downlinkCounterPhase s) := by
  obtain ⟨g1, g2, g3, g4, g5, g6⟩ := h
  unfold downlinkCounterPhase
  split
  · exact ⟨g1, Nat.mod_lt _ (by decide), g3, g4, g5, g6⟩
  · exact ⟨g1, g2, g3, g4, g5, g6⟩

theorem goodCtx_rxDataPhase {s : DeviceCtx} (rx : Bool) (port : Nat)
    (buf : List Nat) (j : LoRaMacStatus) (h : GoodCtx s) :
    GoodCtx (rxDataPhase rx port buf j s) := by
  unfold rxDataPhase
  split_ifs <;>
    first
      | exact h
      | exact goodCtx_complianceDownlink buf j h
      | exact goodCtx_of_parts h (by rfl) (by rfl) (by rfl) (by rfl) (by rfl)
          (by exact Or.inl rfl)

theorem goodCtx_mcpsInd {s : DeviceCtx} (status : EventInfoStatus)
    (fp rx : Bool) (port : Nat) (buf : List Nat) (o : TimerOracle)
    (j : LoRaMacStatus) (h : GoodCtx s) :
    GoodCtx (McpsIndicationStep status fp rx port buf o j s) := by
  unfold McpsIndicationStep
  split
  · exact h
  · exact goodCtx_rxDataPhase _ _ _ _
      (goodCtx_downlinkCounterPhase (goodCtx_framePendingPhase _ _ h))

set_option maxHeartbeats 1600000 in
theorem goodCtx_mlmeConf {s : DeviceCtx} (k : MlmeKind) (status : EventInfoStatus)
    (m g : Nat) (j : LoRaMacStatus) (h : GoodCtx s) :
    GoodCtx (MlmeConfirmStep k status m g j s) := by
  unfold MlmeConfirmStep
  split <;> (try split_ifs) <;>
    first
      | exact h
      | exact goodCtx_joinNetwork _ h
      | exact goodCtx_running_parts h (by assumption) (by rfl) (by assumption)
          (by rfl) (by rfl) (by exact Or.inl rfl)
      | exact goodCtx_of_parts h (by rfl) (by rfl) (by rfl) (by rfl) (by rfl)
          (by first
                | exact Or.inl rfl
                | exact Or.inr (Or.inl rfl)
                | exact Or.inr (Or.inr (Or.inl rfl))
                | exact Or.inr (Or.inr (Or.inr (Or.inl rfl)))
                | exact Or.inr (Or.inr (Or.inr (Or.inr rfl))))

theorem goodCtx_mlmeInd {s : DeviceCtx} (k : MlmeIndKind) (o : TimerOracle)
    (h : GoodCtx s) : GoodCtx (MlmeIndicationStep k o s) := by
  unfold MlmeIndicationStep
  split <;>
    first
      | exact goodCtx_onTx o h
      | exact h
      | exact goodCtx_of_parts h (by rfl) (by rfl) (by rfl) (by rfl) (by rfl)
          (by exact Or.inr (Or.inr (Or.inl rfl)))

set_option maxHeartbeats 1600000 in
theorem goodCtx_mainStep {s : DeviceCtx} (o : MainOracle) (h : GoodCtx s) :
    GoodCtx (mainStep o s) := by
  have hp : GoodCtx (PrepareTxFrame o s.AppPort s) := goodCtx_prepare o s.AppPort h
  unfold mainStep
  split <;> (try split_ifs) <;>
    first
      | exact h
      | exact goodCtx_joinNetwork _ h
      | exact goodCtx_of_parts hp (by rfl) (by rfl) (by rfl) (by rfl) (by rfl)
          (by exact Or.inl rfl)
      | exact goodCtx_of_parts h (by rfl) (by rfl) (by rfl) (by rfl) (by rfl)
          (by first | exact Or.inl rfl | exact Or.inr (Or.inl rfl))

theorem goodCtx_step {s : DeviceCtx} (e : Event) (h : GoodCtx s) :
    GoodCtx (step e s) := by
  cases e
  · exact goodCtx_mainStep _ h
  · exact goodCtx_onTx _ h
  · exact goodCtx_of_parts h (by rfl) (by rfl) (by rfl) (by rfl) (by rfl)
      (by exact Or.inl rfl)
  · exact h
  · exact goodCtx_mcpsInd _ _ _ _ _ _ _ h
  · exact goodCtx_mlmeConf _ _ _ _ _ h
  · exact goodCtx_mlmeInd _ _ h

theorem goodCtx_init : GoodCtx initState := by
  refine ⟨by exact List.length_replicate 242 0,
    by show (0:Nat) < 65536; decide,
    fun _ => ⟨rfl, rfl⟩, ?_, by show DeviceStateE.START ≠ _; decide,
    by show DeviceStateE.START ≠ _; decide⟩
  intro hr
  cases hr

/-- Every reachable state satisfies the context invariant. -/
theorem goodCtx_reachable : ∀ s, Reachable s → GoodCtx s :=
  reachable_invariant goodCtx_init (fun _ e h => goodCtx_step e h)

/-- `OnTxNextPacketTimerEvent` only touches DeviceState and NextTx. -/
theorem onTx_shared (o : TimerOracle) (s : DeviceCtx) :
    (OnTxNextPacketTimerEvent o s).AppPort = s.AppPort ∧
    (OnTxNextPacketTimerEvent o s).AppDataSize = s.AppDataSize ∧
    (OnTxNextPacketTimerEvent o s).AppDataSizeBackup = s.AppDataSizeBackup ∧
    (OnTxNextPacketTimerEvent o s).AppDataBuffer = s.AppDataBuffer ∧
    (OnTxNextPacketTimerEvent o s).IsTxConfirmed = s.IsTxConfirmed ∧
    (OnTxNextPacketTimerEvent o s).ComplianceTest = s.ComplianceTest := by
  unfold OnTxNextPacketTimerEvent JoinNetwork
  split_ifs <;> exact ⟨rfl, rfl, rfl, rfl, rfl, rfl⟩

/-- The pending-frame phase only touches DeviceState and NextTx. -/
theorem framePendingPhase_shared (fp : Bool) (o : TimerOracle) (s : DeviceCtx) :
    (framePendingPhase fp o s).AppPort = s.AppPort ∧
    (framePendingPhase fp o s).AppDataSize = s.AppDataSize ∧
    (framePendingPhase fp o s).AppDataSizeBackup = s.AppDataSizeBackup ∧
    (framePendingPhase fp o s).AppDataBuffer = s.AppDataBuffer ∧
    (framePendingPhase fp o s).IsTxConfirmed = s.IsTxConfirmed ∧
    (framePendingPhase fp o s).ComplianceTest = s.ComplianceTest := by
  unfold framePendingPhase
  split
  · exact onTx_shared o s
  · exact ⟨rfl, rfl, rfl, rfl, rfl, rfl⟩

/-- The downlink-counter phase only touches the counter. -/
theorem downlinkCounterPhase_proj (s : DeviceCtx) :
    (downlinkCounterPhase s).AppPort = s.AppPort ∧
    (downlinkCounterPhase s).AppDataSize = s.AppDataSize ∧
    (downlinkCounterPhase s).AppDataSizeBackup = s.AppDataSizeBackup ∧
    (downlinkCounterPhase s).AppDataBuffer = s.AppDataBuffer ∧
    (downlinkCounterPhase s).IsTxConfirmed = s.IsTxConfirmed ∧
    (downlinkCounterPhase s).ComplianceTest.Running = s.ComplianceTest.Running ∧
    (downlinkCounterPhase s).ComplianceTest.State = s.ComplianceTest.State ∧
    (downlinkCounterPhase s).ComplianceTest.LinkCheck = s.ComplianceTest.LinkCheck ∧
    (downlinkCounterPhase s).ComplianceTest.DemodMargin = s.ComplianceTest.DemodMargin ∧
    (downlinkCounterPhase s).ComplianceTest.NbGateways = s.ComplianceTest.NbGateways := by
  unfold downlinkCounterPhase
  split <;> exact ⟨rfl, rfl, rfl, rfl, rfl, rfl, rfl, rfl, rfl, rfl⟩

/-- No compliance command writes the payload-size backup. -/
theorem complianceCommand_backup (st : Nat) (buf : List Nat) (j : LoRaMacStatus)
    (s1 : DeviceCtx) :
    (complianceCommand st buf j s1).AppDataSizeBackup = s1.AppDataSizeBackup := by
  unfold complianceCommand
  by_cases h0 : st = 0
  · rw [if_pos h0]
    try rfl
  rw [if_neg h0]
  by_cases h1 : st = 1
  · rw [if_pos h1]
    try rfl
  rw [if_neg h1]
  by_cases h2 : st = 2
  · rw [if_pos h2]
    try rfl
  rw [if_neg h2]
  by_cases h3 : st = 3
  · rw [if_pos h3]
    try rfl
  rw [if_neg h3]
  by_cases h4 : st = 4
  · rw [if_pos h4]
    try rfl
  rw [if_neg h4]
  by_cases h5 : st = 5
  · rw [if_pos h5]
    try rfl
  rw [if_neg h5]
  by_cases h6 : st = 6
  · rw [if_pos h6]
    unfold JoinNetwork
    split <;> rfl
  rw [if_neg h6]
  by_cases h7 : st = 7
  · rw [if_pos h7]
    try rfl
  rw [if_neg h7]
  by_cases h8 : st = 8
  · rw [if_pos h8]
    try rfl
  rw [if_neg h8]
  by_cases h9 : st = 9
  · rw [if_pos h9]
    try rfl
  rw [if_neg h9]
  by_cases h10 : st = 10
  · rw [if_pos h10]
    try rfl
  rw [if_neg h10]
  by_cases h11 : st = 11
  · rw [if_pos h11]
    try rfl
  rw [if_neg h11]
  try rfl

/-- While the compliance engine runs, a port-224 downlink never writes the
payload-size backup (only the inactive-state enable command does). -/
theorem complianceDownlink_backup {s : DeviceCtx} (buf : List Nat)
    (j : LoRaMacStatus) (hrun : s.ComplianceTest.Running = true) :
    (complianceDownlink buf j s).AppDataSizeBackup = s.AppDataSizeBackup := by
  unfold complianceDownlink
  rw [if_neg (by simp [hrun])]
  rw [complianceCommand_backup]

theorem rxDataPhase_backup {s : DeviceCtx} (rx : Bool) (port : Nat)
    (buf : List Nat) (j : LoRaMacStatus) (hrun : s.ComplianceTest.Running = true) :
    (rxDataPhase rx port buf j s).AppDataSizeBackup = s.AppDataSizeBackup := by
  unfold rxDataPhase
  split_ifs <;> first | rfl | exact complianceDownlink_backup buf j hrun

/-- `PrepareTxFrame` on port 224 never writes the payload-size backup. -/
theorem prepare224_backup (o : MainOracle) (s : DeviceCtx) :
    (PrepareTxFrame o 224 s).AppDataSizeBackup = s.AppDataSizeBackup := by
  unfold PrepareTxFrame
  rw [if_neg (by decide), if_pos rfl]
  split_ifs <;> rfl

theorem mainStep_backup (o : MainOracle) {s : DeviceCtx} (hport : s.AppPort = 224) :
    (mainStep o s).AppDataSizeBackup = s.AppDataSizeBackup := by
  unfold mainStep
  split <;>
    first
      | rfl
      | (split_ifs <;> rfl)
      | (unfold JoinNetwork; split <;> rfl)
      | (split_ifs <;> first | rfl | (rw [hport]; exact prepare224_backup o s))

theorem mcpsInd_backup (status : EventInfoStatus) (fp rx : Bool) (port : Nat)
    (buf : List Nat) (o : TimerOracle) (j : LoRaMacStatus) {s : DeviceCtx}
    (hrun : s.ComplianceTest.Running = true) :
    (McpsIndicationStep status fp rx port buf o j s).AppDataSizeBackup =
      s.AppDataSizeBackup := by
  unfold McpsIndicationStep
  split
  · rfl
  · obtain ⟨hf1, hf2, hf3, hf4, hf5, hf6⟩ := framePendingPhase_shared fp o s
    have hrun1 : (framePendingPhase fp o s).ComplianceTest.Running = true := by
      rw [hf6]; exact hrun
    obtain ⟨hd1, hd2, hd3, hd4, hd5, hd6, hdrest⟩ :=
      downlinkCounterPhase_proj (framePendingPhase fp o s)
    have hrun2 : (downlinkCounterPhase (framePendingPhase fp o s)).ComplianceTest.Running
        = true := by rw [hd6]; exact hrun1
    rw [rxDataPhase_backup rx port buf j hrun2, hd3, hf3]

theorem mlmeConf_backup (k : MlmeKind) (status : EventInfoStatus) (m g : Nat)
    (j : LoRaMacStatus) (s : DeviceCtx) :
    (MlmeConfirmStep k status m g j s).AppDataSizeBackup = s.AppDataSizeBackup := by
  unfold MlmeConfirmStep
  split <;> (try split_ifs) <;> first | rfl | (unfold JoinNetwork; split <;> rfl)

theorem mlmeInd_backup (k : MlmeIndKind) (o : TimerOracle) (s : DeviceCtx) :
    (MlmeIndicationStep k o s).AppDataSizeBackup = s.AppDataSizeBackup := by
  unfold MlmeIndicationStep
  split <;> first | rfl | exact (onTx_shared o s).2.2.1

/-- While the compliance engine runs, no event writes the payload-size
backup: the only two writers are the port-3 frame builder (blocked because
the port is 224 during a session) and the enable command (blocked because it
requires the engine inactive). -/
theorem step_preserves_backup (e : Event) {s : DeviceCtx} (hg : GoodCtx s)
    (hrun : s.ComplianceTest.Running = true) :
    (step e s).AppDataSizeBackup = s.AppDataSizeBackup := by
  obtain ⟨g1, g2, g3, g4, g5, g6⟩ := hg
  have hport : s.AppPort = 224 := g4 hrun
  cases e
  · exact mainStep_backup _ hport
  · exact (onTx_shared _ _).2.2.1
  · rfl
  · rfl
  · exact mcpsInd_backup _ _ _ _ _ _ _ hrun
  · exact mlmeConf_backup _ _ _ _ _ _
  · exact mlmeInd_backup _ _ _

/-- Along a run that keeps the compliance engine active, the payload-size
backup captured at entry is never overwritten. -/
theorem run_backup_preserved (evs : List Event) :
    ∀ s1 : DeviceCtx, Reachable s1 → s1.ComplianceTest.Running = true →
      RunsThrough s1 evs →
      (runEvents s1 evs).AppDataSizeBackup = s1.AppDataSizeBackup ∧
      (runEvents s1 evs).ComplianceTest.Running = true := by
  induction evs with
  | nil => exact fun s1 _ h1 _ => ⟨rfl, h1⟩
  | cons e es ih =>
    intro s1 hr h1 ht
    obtain ⟨ht1, ht2⟩ := ht
    have hib := ih (step e s1) (hr.ofStep e) ht1 ht2
    have hcons : runEvents s1 (e :: es) = runEvents (step e s1) es := rfl
    refine ⟨?_, by rw [hcons]; exact hib.2⟩
    rw [hcons, hib.1]
    exact step_preserves_backup e (goodCtx_reachable s1 hr) h1

/-- Effect of the 4-byte all-0x01 enable downlink on an inactive state: the
engine starts and the current payload size is captured into the backup. -/
theorem entry_effect (s : DeviceCtx) (hrun : s.ComplianceTest.Running = false)
    (fp : Bool) (o : TimerOracle) (j : LoRaMacStatus) :
    (step (Event.mcpsInd EventInfoStatus.OK fp true 224 [1, 1, 1, 1] o j)
        s).ComplianceTest.Running = true ∧
    (step (Event.mcpsInd EventInfoStatus.OK fp true 224 [1, 1, 1, 1] o j)
        s).AppDataSizeBackup = s.AppDataSize := by
  obtain ⟨hf1, hf2, hf3, hf4, hf5, hf6⟩ := framePendingPhase_shared fp o s
  have hr1 : (framePendingPhase fp o s).ComplianceTest.Running = false := by
    rw [hf6]; exact hrun
  have hdc : downlinkCounterPhase (framePendingPhase fp o s) = framePendingPhase fp o s := by
    unfold downlinkCounterPhase
    rw [if_neg (by simp [hr1])]
  simp only [step]
  unfold McpsIndicationStep
  rw [if_neg (by decide), hdc]
  unfold rxDataPhase
  rw [if_pos rfl, if_neg (by decide), if_pos rfl]
  unfold complianceDownlink
  rw [if_pos hr1, if_pos (by constructor <;> decide)]
  exact ⟨rfl, by rw [hf2]⟩

/-- Effect of a step-0 or step-6 downlink on a running state: confirmed-mode
and port return to their defaults and the payload size is restored from the
backup. -/
theorem exit_effect (s : DeviceCtx) (hrun : s.ComplianceTest.Running = true)
    (fp : Bool) (o : TimerOracle) (j : LoRaMacStatus) (buf : List Nat)
    (hb : buf.getD 0 0 = 0 ∨ buf.getD 0 0 = 6) :
    (step (Event.mcpsInd EventInfoStatus.OK fp true 224 buf o j) s).IsTxConfirmed = false ∧
    (step (Event.mcpsInd EventInfoStatus.OK fp true 224 buf o j) s).AppPort = 3 ∧
    (step (Event.mcpsInd EventInfoStatus.OK fp true 224 buf o j) s).AppDataSize =
      s.AppDataSizeBackup := by
  obtain ⟨hf1, hf2, hf3, hf4, hf5, hf6⟩ := framePendingPhase_shared fp o s
  have hr1 : (framePendingPhase fp o s).ComplianceTest.Running = true := by
    rw [hf6]; exact hrun
  obtain ⟨hd1, hd2, hd3, hd4, hd5, hd6, hd7⟩ :=
    downlinkCounterPhase_proj (framePendingPhase fp o s)
  have hr2 : (downlinkCounterPhase (framePendingPhase fp o s)).ComplianceTest.Running
      = true := by rw [hd6]; exact hr1
  simp only [step]
  unfold McpsIndicationStep
  rw [if_neg (by decide)]
  unfold rxDataPhase
  rw [if_pos rfl, if_neg (by decide), if_pos rfl]
  unfold complianceDownlink
  rw [if_neg (by simp [hr2])]
  rcases hb with hb | hb <;> rw [hb]
  · unfold complianceCommand
    rw [if_pos rfl]
    exact ⟨rfl, rfl, by exact hd3.trans hf3⟩
  · unfold complianceCommand
    rw [if_neg (by decide), if_neg (by decide), if_neg (by decide), if_neg (by decide),
      if_neg (by decide), if_neg (by decide), if_pos rfl]
    unfold JoinNetwork
    split <;> exact ⟨rfl, rfl, by exact hd3.trans hf3⟩

/-- Reading the first two cells of a twice-updated buffer. -/
theorem take_two_set (b : List Nat) (hb : 2 ≤ b.length) (x y : Nat) :
    ((b.set 0 x).set 1 y).take 2 = [x, y] := by
  cases b with
  | nil => simp at hb
  | cons a t =>
    cases t with
    | nil => simp at hb
    | cons a2 t2 => rfl

/-- Reading the first three cells of a thrice-updated buffer. -/
theorem take_three_set (b : List Nat) (hb : 3 ≤ b.length) (x y z : Nat) :
    (((b.set 0 x).set 1 y).set 2 z).take 3 = [x, y, z] := by
  cases b with
  | nil => simp at hb
  | cons a t =>
    cases t with
    | nil => simp at hb
    | cons a2 t2 =>
      cases t2 with
      | nil => simp at hb
      | cons a3 t3 => rfl

/-- C1 counterexample: the claim states that WakeUpState is never one of
RESTORE, START, JOIN, including immediately after initialization; but
main.c line 1270 initializes WakeUpState to DEVICE_STATE_START, so the
(reachable) initial state already violates the claim. -/
theorem C1_counterexample :
    Reachable initState ∧ initState.WakeUpState = DeviceStateE.START :=
  ⟨⟨[], rfl⟩, rfl⟩

/-- C1 (amended): for every reachable program state, WakeUpState is never
RESTORE and never JOIN (START does occur, but only as the initializer's
value; every assignment made by a main-loop step or a MAC/timer callback
stores SEND, REQ_DEVICE_TIME, REQ_BEACON_TIMING or REQ_PINGSLOT_ACK). -/
theorem C1_wakeup_invariant (s : DeviceCtx) (hs : Reachable s) :
    s.WakeUpState ≠ DeviceStateE.RESTORE ∧ s.WakeUpState ≠ DeviceStateE.JOIN := by
  obtain ⟨g1, g2, g3, g4, g5, g6⟩ := goodCtx_reachable s hs
  exact ⟨g5, g6⟩

theorem C1_wakeup_invariant_witness :
    initState.WakeUpState ≠ DeviceStateE.RESTORE ∧
    initState.WakeUpState ≠ DeviceStateE.JOIN :=
  C1_wakeup_invariant initState ⟨[], rfl⟩

/-- C2: starting from any reachable state with the compliance engine
inactive, the 4-byte all-0x01 enable downlink on port 224 backs up the
pre-entry {IsTxConfirmed, AppPort, AppDataSize} triple, and after any event
sequence during which the engine stays running, a step-0 or step-6 downlink
restores exactly that triple. -/
theorem C2_backup_restore (s : DeviceCtx) (hs : Reachable s)
    (hrun : s.ComplianceTest.Running = false)
    (fp fp2 : Bool) (o o2 : TimerOracle) (j j2 : LoRaMacStatus)
    (evs : List Event) (exitBuf : List Nat)
    (hexit : exitBuf.getD 0 0 = 0 ∨ exitBuf.getD 0 0 = 6)
    (s1 s2 s3 : DeviceCtx)
    (hs1 : s1 = step (Event.mcpsInd EventInfoStatus.OK fp true 224 [1, 1, 1, 1] o j) s)
    (hmid : RunsThrough s1 evs)
    (hs2 : s2 = runEvents s1 evs)
    (hs3 : s3 = step (Event.mcpsInd EventInfoStatus.OK fp2 true 224 exitBuf o2 j2) s2) :
    s3.IsTxConfirmed = s.IsTxConfirmed ∧ s3.AppPort = s.AppPort ∧
    s3.AppDataSize = s.AppDataSize := by
  obtain ⟨g1, g2, g3, g4, g5, g6⟩ := goodCtx_reachable s hs
  obtain ⟨hc1, hc2⟩ := g3 hrun
  obtain ⟨he1, he2⟩ := entry_effect s hrun fp o j
  subst hs1
  obtain ⟨hp1, hp2⟩ := run_backup_preserved evs _ (hs.ofStep _) he1 hmid
  subst hs2
  obtain ⟨hx1, hx2, hx3⟩ := exit_effect _ hp2 fp2 o2 j2 exitBuf hexit
  subst hs3
  exact ⟨by rw [hx1, hc1], by rw [hx2, hc2], by rw [hx3, hp1, he2]⟩

theorem C2_backup_restore_witness :
    (step (Event.mcpsInd EventInfoStatus.OK false true 224 [0] timer0 LoRaMacStatus.OK)
        (runEvents (step (Event.mcpsInd EventInfoStatus.OK false true 224 [1, 1, 1, 1]
          timer0 LoRaMacStatus.OK) initState) [])).IsTxConfirmed =
      initState.IsTxConfirmed ∧
    (step (Event.mcpsInd EventInfoStatus.OK false true 224 [0] timer0 LoRaMacStatus.OK)
        (runEvents (step (Event.mcpsInd EventInfoStatus.OK false true 224 [1, 1, 1, 1]
          timer0 LoRaMacStatus.OK) initState) [])).AppPort = initState.AppPort ∧
    (step (Event.mcpsInd EventInfoStatus.OK false true 224 [0] timer0 LoRaMacStatus.OK)
        (runEvents (step (Event.mcpsInd EventInfoStatus.OK false true 224 [1, 1, 1, 1]
          timer0 LoRaMacStatus.OK) initState) [])).AppDataSize =
      initState.AppDataSize :=
  C2_backup_restore initState ⟨[], rfl⟩ rfl false false timer0 timer0
    LoRaMacStatus.OK LoRaMacStatus.OK [] [0] (Or.inl rfl) _ _ _ rfl trivial rfl rfl

/-- C8: the join operation moves DeviceState to SLEEP when the MLME_JOIN
request is accepted, to CYCLE when it is rejected (the duty-cycle-restricted
rejection only reports its wait hint and changes nothing else), and every
failed asynchronous join confirmation re-invokes the join operation. -/
theorem C8_join_manager (s : DeviceCtx) (st : LoRaMacStatus)
    (hst : st ≠ LoRaMacStatus.OK) (cst : EventInfoStatus)
    (hcst : cst ≠ EventInfoStatus.OK) (m g : Nat) (j : LoRaMacStatus) :
    JoinNetwork LoRaMacStatus.OK s = { s with DeviceState := DeviceStateE.SLEEP } ∧
    JoinNetwork st s = { s with DeviceState := DeviceStateE.CYCLE } ∧
    JoinNetwork LoRaMacStatus.DUTYCYCLE_RESTRICTED s =
      { s with DeviceState := DeviceStateE.CYCLE } ∧
    MlmeConfirmStep MlmeKind.JOIN cst m g j s = JoinNetwork j s := by
  refine ⟨rfl, ?_, rfl, ?_⟩
  · unfold JoinNetwork
    rw [if_neg hst]
  · unfold MlmeConfirmStep
    rw [if_neg hcst]

theorem C8_join_manager_witness :
    JoinNetwork LoRaMacStatus.OK initState =
      { initState with DeviceState := DeviceStateE.SLEEP } ∧
    JoinNetwork LoRaMacStatus.BUSY initState =
      { initState with DeviceState := DeviceStateE.CYCLE } ∧
    JoinNetwork LoRaMacStatus.DUTYCYCLE_RESTRICTED initState =
      { initState with DeviceState := DeviceStateE.CYCLE } ∧
    MlmeConfirmStep MlmeKind.JOIN EventInfoStatus.JOIN_FAIL 0 0 LoRaMacStatus.OK
        initState =
      JoinNetwork LoRaMacStatus.OK initState :=
  C8_join_manager initState LoRaMacStatus.BUSY (by decide)
    EventInfoStatus.JOIN_FAIL (by decide) 0 0 LoRaMacStatus.OK

/-- C9: a ping-slot-info confirmation with OK status sets the device class
to Class B, WakeUpState and DeviceState to SEND and NextTx to true, while
every non-OK status only sets WakeUpState to REQ_PINGSLOT_ACK, leaving
DeviceState, NextTx and the device class unchanged. -/
theorem C9_pingslot_confirm (s : DeviceCtx) (m g : Nat) (j : LoRaMacStatus)
    (st : EventInfoStatus) (hst : st ≠ EventInfoStatus.OK) :
    MlmeConfirmStep MlmeKind.PING_SLOT_INFO EventInfoStatus.OK m g j s =
      { s with deviceClass := 1, WakeUpState := DeviceStateE.SEND,
               DeviceState := DeviceStateE.SEND, NextTx := true } ∧
    MlmeConfirmStep MlmeKind.PING_SLOT_INFO st m g j s =
      { s with WakeUpState := DeviceStateE.REQ_PINGSLOT_ACK } := by
  constructor
  · rfl
  · simp only [MlmeConfirmStep]
    rw [if_neg hst]

theorem C9_pingslot_confirm_witness :
    MlmeConfirmStep MlmeKind.PING_SLOT_INFO EventInfoStatus.OK 1 2
        LoRaMacStatus.OK initState =
      { initState with deviceClass := 1, WakeUpState := DeviceStateE.SEND,
                       DeviceState := DeviceStateE.SEND, NextTx := true } ∧
    MlmeConfirmStep MlmeKind.PING_SLOT_INFO EventInfoStatus.ERROR 1 2
        LoRaMacStatus.OK initState =
      { initState with WakeUpState := DeviceStateE.REQ_PINGSLOT_ACK } :=
  C9_pingslot_confirm initState 1 2 LoRaMacStatus.OK EventInfoStatus.ERROR
    (by decide)

/-- C10: device-time and beacon-timing confirmations unconditionally set
WakeUpState = SEND, DeviceState = BEACON_ACQUISITION and NextTx = true, and
their result does not depend on the reported status (nor on any other field
of the confirmation). -/
theorem C10_time_confirmations (s : DeviceCtx) (st st2 : EventInfoStatus)
    (m m2 g g2 : Nat) (j j2 : LoRaMacStatus) :
    ((MlmeConfirmStep MlmeKind.DEVICE_TIME st m g j s).WakeUpState =
        DeviceStateE.SEND ∧
      (MlmeConfirmStep MlmeKind.DEVICE_TIME st m g j s).DeviceState =
        DeviceStateE.BEACON_ACQUISITION ∧
      (MlmeConfirmStep MlmeKind.DEVICE_TIME st m g j s).NextTx = true) ∧
    ((MlmeConfirmStep MlmeKind.BEACON_TIMING st m g j s).WakeUpState =
        DeviceStateE.SEND ∧
      (MlmeConfirmStep MlmeKind.BEACON_TIMING st m g j s).DeviceState =
        DeviceStateE.BEACON_ACQUISITION ∧
      (MlmeConfirmStep MlmeKind.BEACON_TIMING st m g j s).NextTx = true) ∧
    MlmeConfirmStep MlmeKind.DEVICE_TIME st m g j s =
      MlmeConfirmStep MlmeKind.DEVICE_TIME st2 m2 g2 j2 s ∧
    MlmeConfirmStep MlmeKind.BEACON_TIMING st m g j s =
      MlmeConfirmStep MlmeKind.BEACON_TIMING st2 m2 g2 j2 s :=
  ⟨⟨rfl, rfl, rfl⟩, ⟨rfl, rfl, rfl⟩, rfl, rfl⟩

/-- C7: the CYCLE step computes a next-transmit delay of exactly 5000 ms
while a compliance session is active, and otherwise 30000 ms plus the randr
draw, which lies in [25000, 35000] ms for every draw in the advertised
window. -/
theorem C7_cycle_delay (s : DeviceCtx) (o : MainOracle)
    (hds : s.DeviceState = DeviceStateE.CYCLE) (hr : randrJitterDraw o.rnd) :
    (s.ComplianceTest.Running = true → (mainStep o s).TxDutyCycleTime = 5000) ∧
    (s.ComplianceTest.Running = false →
      25000 ≤ (mainStep o s).TxDutyCycleTime ∧
      (mainStep o s).TxDutyCycleTime ≤ 35000) := by
  obtain ⟨hr1, hr2⟩ := hr
  have hm : mainStep o s =
      { s with
          DeviceState := DeviceStateE.SLEEP,
          TxDutyCycleTime :=
            if s.ComplianceTest.Running = true then 5000 else 30000 + o.rnd } := by
    unfold mainStep
    rw [hds]
  constructor
  · intro hrun
    rw [hm]
    show (if s.ComplianceTest.Running = true then (5000 : Int) else 30000 + o.rnd)
      = 5000
    rw [if_pos hrun]
  · intro hrun
    have hite : (if s.ComplianceTest.Running = true then (5000 : Int)
        else 30000 + o.rnd) = 30000 + o.rnd := by
      rw [if_neg (by simp [hrun])]
    constructor
    · rw [hm]
      show 25000 ≤ (if s.ComplianceTest.Running = true then (5000 : Int)
        else 30000 + o.rnd)
      rw [hite]
      omega
    · rw [hm]
      show (if s.ComplianceTest.Running = true then (5000 : Int)
        else 30000 + o.rnd) ≤ 35000
      rw [hite]
      omega

theorem C7_cycle_delay_witness :
    (cycleState.ComplianceTest.Running = true →
      (mainStep oracleR cycleState).TxDutyCycleTime = 5000) ∧
    (cycleState.ComplianceTest.Running = false →
      25000 ≤ (mainStep oracleR cycleState).TxDutyCycleTime ∧
      (mainStep oracleR cycleState).TxDutyCycleTime ≤ 35000) :=
  C7_cycle_delay cycleState oracleR rfl ⟨by decide, by decide⟩

/-- C6: while the compliance engine is active at step 1 with no latched
link-check result, the prepared uplink payload is exactly the two bytes
[counter >> 8, counter % 256], the recorded size is 2, and the counter is a
uint16 value. -/
theorem C6_step1_counter_echo (s : DeviceCtx) (o : MainOracle) (hs : Reachable s)
    (hrun : s.ComplianceTest.Running = true)
    (hst : s.ComplianceTest.State = 1)
    (hlc : s.ComplianceTest.LinkCheck = false) :
    (PrepareTxFrame o s.AppPort s).AppDataSize = 2 ∧
    (PrepareTxFrame o s.AppPort s).AppDataBuffer.take 2 =
      [s.ComplianceTest.DownLinkCounter >>> 8,
        s.ComplianceTest.DownLinkCounter % 256] ∧
    s.ComplianceTest.DownLinkCounter < 65536 := by
  obtain ⟨g1, g2, g3, g4, g5, g6⟩ := goodCtx_reachable s hs
  have hport : s.AppPort = 224 := g4 hrun
  rw [hport]
  unfold PrepareTxFrame
  rw [if_neg (by decide), if_pos rfl, if_neg (by simp [hlc]),
    if_neg (by simp [hst]), if_pos hst]
  exact ⟨rfl, take_two_set s.AppDataBuffer (by omega) _ _, g2⟩

theorem C6_step1_counter_echo_witness :
    (PrepareTxFrame oracleR enteredState.AppPort enteredState).AppDataSize = 2 ∧
    (PrepareTxFrame oracleR enteredState.AppPort enteredState).AppDataBuffer.take 2 =
      [enteredState.ComplianceTest.DownLinkCounter >>> 8,
        enteredState.ComplianceTest.DownLinkCounter % 256] ∧
    enteredState.ComplianceTest.DownLinkCounter < 65536 :=
  C6_step1_counter_echo enteredState oracleR ⟨[enterEv], rfl⟩ rfl rfl rfl

/-- C4: a link-check confirmation with OK status latched while the
compliance engine is active makes the very next prepared uplink payload
exactly [5, margin, gatewayCount] (size 3), pre-empting whatever the pending
step would have produced, after which the compliance step is 1 and the
link-check-pending flag is cleared. -/
theorem C4_linkcheck_priority (s : DeviceCtx) (hs : Reachable s)
    (hrun : s.ComplianceTest.Running = true) (m g : Nat) (j : LoRaMacStatus)
    (o : MainOracle) (s1 s2 : DeviceCtx)
    (hs1 : s1 = MlmeConfirmStep MlmeKind.LINK_CHECK EventInfoStatus.OK m g j s)
    (hs2 : s2 = PrepareTxFrame o s1.AppPort s1) :
    s2.AppDataSize = 3 ∧ s2.AppDataBuffer.take 3 = [5, m, g] ∧
    s2.ComplianceTest.State = 1 ∧ s2.ComplianceTest.LinkCheck = false := by
  obtain ⟨g1, g2, g3, g4, g5, g6⟩ := goodCtx_reachable s hs
  have hport : s.AppPort = 224 := g4 hrun
  have hm : s1 = { s with ComplianceTest := { s.ComplianceTest with
      LinkCheck := true, DemodMargin := m, NbGateways := g } } := by
    rw [hs1]
    simp only [MlmeConfirmStep]
    rw [if_pos trivial, if_pos hrun]
  have hp1 : s1.AppPort = 224 := by rw [hm]; exact hport
  have hlc1 : s1.ComplianceTest.LinkCheck = true := by rw [hm]
  have hDM : s1.ComplianceTest.DemodMargin = m := by rw [hm]
  have hNG : s1.ComplianceTest.NbGateways = g := by rw [hm]
  have hbuf1 : s1.AppDataBuffer = s.AppDataBuffer := by rw [hm]
  subst hs2
  rw [hp1]
  unfold PrepareTxFrame
  rw [if_neg (by decide), if_pos rfl, if_pos hlc1]
  refine ⟨rfl, ?_, rfl, rfl⟩
  rw [hbuf1, hDM, hNG]
  exact take_three_set s.AppDataBuffer (by omega) 5 m g

theorem C4_linkcheck_priority_witness :
    (PrepareTxFrame oracleR
        (MlmeConfirmStep MlmeKind.LINK_CHECK EventInfoStatus.OK 7 2
          LoRaMacStatus.OK enteredState).AppPort
        (MlmeConfirmStep MlmeKind.LINK_CHECK EventInfoStatus.OK 7 2
          LoRaMacStatus.OK enteredState)).AppDataSize = 3 ∧
    (PrepareTxFrame oracleR
        (MlmeConfirmStep MlmeKind.LINK_CHECK EventInfoStatus.OK 7 2
          LoRaMacStatus.OK enteredState).AppPort
        (MlmeConfirmStep MlmeKind.LINK_CHECK EventInfoStatus.OK 7 2
          LoRaMacStatus.OK enteredState)).AppDataBuffer.take 3 = [5, 7, 2] ∧
    (PrepareTxFrame oracleR
        (MlmeConfirmStep MlmeKind.LINK_CHECK EventInfoStatus.OK 7 2
          LoRaMacStatus.OK enteredState).AppPort
        (MlmeConfirmStep MlmeKind.LINK_CHECK EventInfoStatus.OK 7 2
          LoRaMacStatus.OK enteredState)).ComplianceTest.State = 1 ∧
    (PrepareTxFrame oracleR
        (MlmeConfirmStep MlmeKind.LINK_CHECK EventInfoStatus.OK 7 2
          LoRaMacStatus.OK enteredState).AppPort
        (MlmeConfirmStep MlmeKind.LINK_CHECK EventInfoStatus.OK 7 2
          LoRaMacStatus.OK enteredState)).ComplianceTest.LinkCheck = false :=
  C4_linkcheck_priority enteredState ⟨[enterEv], rfl⟩ rfl 7 2 LoRaMacStatus.OK
    oracleR _ _ rfl rfl

/-- C5 counterexample: the claim says a port-224 downlink that matches no
recognized command changes nothing; but on the reachable state right after
compliance entry (step 1, counter 0), a downlink with first byte 12 (not a
command) sets ComplianceTest.State to 12 and increments the downlink
counter. -/
theorem C5_counterexample :
    Reachable enteredState ∧
    enteredState.ComplianceTest.Running = true ∧
    enteredState.ComplianceTest.State = 1 ∧
    enteredState.ComplianceTest.DownLinkCounter = 0 ∧
    (step (Event.mcpsInd EventInfoStatus.OK false true 224 [12] timer0
        LoRaMacStatus.OK) enteredState).ComplianceTest.State = 12 ∧
    (step (Event.mcpsInd EventInfoStatus.OK false true 224 [12] timer0
        LoRaMacStatus.OK) enteredState).ComplianceTest.DownLinkCounter = 1 :=
  ⟨⟨[enterEv], rfl⟩, rfl, rfl, rfl, rfl, rfl⟩

/-- C5 (amended): a port-224 downlink received while the compliance engine
is inactive that is not exactly the 4-byte all-0x01 enable pattern changes
no state at all; while the engine is active, a downlink with an unrecognized
first byte (12 or more) still increments the downlink counter and still
stores that first byte into ComplianceTest.State, and changes nothing else. -/
theorem C5_malformed_ignored (s : DeviceCtx) (buf : List Nat) (o : TimerOracle)
    (j : LoRaMacStatus) :
    (s.ComplianceTest.Running = false →
      ¬(buf.length = 4 ∧ buf.getD 0 0 = 1 ∧ buf.getD 1 0 = 1 ∧
          buf.getD 2 0 = 1 ∧ buf.getD 3 0 = 1) →
      step (Event.mcpsInd EventInfoStatus.OK false true 224 buf o j) s = s) ∧
    (s.ComplianceTest.Running = true → 12 ≤ buf.getD 0 0 →
      step (Event.mcpsInd EventInfoStatus.OK false true 224 buf o j) s =
        { s with ComplianceTest := { s.ComplianceTest with
            State := buf.getD 0 0,
            DownLinkCounter := (s.ComplianceTest.DownLinkCounter + 1) % 65536 } }) := by
  constructor
  · intro hrun hpat
    simp only [step]
    unfold McpsIndicationStep
    rw [if_neg (by decide)]
    have hfp : framePendingPhase false o s = s := rfl
    rw [hfp]
    have hdc : downlinkCounterPhase s = s := by
      unfold downlinkCounterPhase
      rw [if_neg (by simp [hrun])]
    rw [hdc]
    unfold rxDataPhase
    rw [if_pos rfl, if_neg (by decide), if_pos rfl]
    unfold complianceDownlink
    rw [if_pos hrun, if_neg hpat]
  · intro hrun hb
    simp only [step]
    unfold McpsIndicationStep
    rw [if_neg (by decide)]
    have hfp : framePendingPhase false o s = s := rfl
    rw [hfp]
    have hdc : downlinkCounterPhase s = { s with ComplianceTest :=
        { s.ComplianceTest with
          DownLinkCounter := (s.ComplianceTest.DownLinkCounter + 1) % 65536 } } := by
      unfold downlinkCounterPhase
      rw [if_pos hrun]
    rw [hdc]
    unfold rxDataPhase
    rw [if_pos rfl, if_neg (by decide), if_pos rfl]
    unfold complianceDownlink
    rw [if_neg (by simp [hrun])]
    unfold complianceCommand
    have hne : ∀ k : Nat, k < 12 → ¬(buf.getD 0 0 = k) := by
      intro k hk heq
      omega
    rw [if_neg (hne 0 (by norm_num)), if_neg (hne 1 (by norm_num)),
      if_neg (hne 2 (by norm_num)), if_neg (hne 3 (by norm_num)),
      if_neg (hne 4 (by norm_num)), if_neg (hne 5 (by norm_num)),
      if_neg (hne 6 (by norm_num)), if_neg (hne 7 (by norm_num)),
      if_neg (hne 8 (by norm_num)), if_neg (hne 9 (by norm_num)),
      if_neg (hne 10 (by norm_num)), if_neg (hne 11 (by norm_num))]

theorem C5_malformed_ignored_witness :
    step (Event.mcpsInd EventInfoStatus.OK false true 224 [9] timer0
        LoRaMacStatus.OK) initState = initState ∧
    step (Event.mcpsInd EventInfoStatus.OK false true 224 [12] timer0
        LoRaMacStatus.OK) enteredState =
      { enteredState with ComplianceTest := { enteredState.ComplianceTest with
          State := 12,
          DownLinkCounter :=
            (enteredState.ComplianceTest.DownLinkCounter + 1) % 65536 } } :=
  ⟨(C5_malformed_ignored initState [9] timer0 LoRaMacStatus.OK).1 rfl (by decide),
    (C5_malformed_ignored enteredState [12] timer0 LoRaMacStatus.OK).2 rfl
      (by decide)⟩

/-- The echo-back loop, read back as a list: the first n cells of the buffer
hold 4 followed by the incremented received bytes. -/
theorem echoLoop_take (rx b : List Nat) (n : Nat) (h1 : 1 ≤ n)
    (hnb : n ≤ b.length) (hnr : n ≤ rx.length) :
    (echoLoop rx n 1 (b.set 0 4)).take n =
      (4 :: (rx.drop 1).map (fun v => (v + 1) % 256)).take n := by
  have hlenL : (echoLoop rx n 1 (b.set 0 4)).length = b.length := by
    rw [echoLoop_length, List.length_set]
  have hlenR : (4 :: (rx.drop 1).map (fun v => (v + 1) % 256)).length = rx.length := by
    simp [List.length_map, List.length_drop]
    omega
  apply List.ext_getElem
  · rw [List.length_take, List.length_take, hlenL, hlenR,
      min_eq_left hnb, min_eq_left hnr]
  · intro i hiL hiR
    have hin : i < n := by
      rw [List.length_take] at hiL
      exact lt_of_lt_of_le hiL (min_le_left _ _)
    rw [List.getElem_take, List.getElem_take]
    have hiLb : i < (echoLoop rx n 1 (b.set 0 4)).length := by
      rw [hlenL]
      omega
    rw [← List.getD_eq_getElem _ 0 hiLb]
    rw [echoLoop_getD rx n 1 i (b.set 0 4) (by rw [List.length_set]; exact hnb)]
    cases i with
    | zero =>
      rw [if_neg (by omega), getD_set_eq_ite, if_pos ⟨rfl, by omega⟩]
      rfl
    | succ k =>
      rw [if_pos ⟨by omega, hin⟩]
      rw [List.getElem_cons_succ, List.getElem_map, List.getElem_drop]
      have hk1 : k + 1 < rx.length := by omega
      have hk2 : 1 + k < rx.length := by omega
      rw [List.getD_eq_getElem rx 0 hk1]
      rw [← List.getD_eq_getElem rx 0 hk1, ← List.getD_eq_getElem rx 0 hk2,
        Nat.add_comm 1 k]

set_option maxRecDepth 100000 in
set_option maxHeartbeats 1600000 in
/-- C3 counterexample: on a reachable state with the engine active and a
latched link-check result, a 243-byte step-4 downlink records payload length
243, which exceeds the 242-byte maximum the claim asserts is never exceeded,
and the next prepared uplink payload is [5, 7, 2] (the link-check report)
rather than the claimed echo form starting with 4. -/
theorem C3_counterexample :
    Reachable c3pre ∧ c3pre.ComplianceTest.Running = true ∧
    c3buf.getD 0 0 = 4 ∧ c3buf.length = 243 ∧
    c3post.AppDataSize = 243 ∧ ¬(c3post.AppDataSize ≤ 242) ∧
    (PrepareTxFrame oracleR c3post.AppPort c3post).AppDataSize = 3 ∧
    (PrepareTxFrame oracleR c3post.AppPort c3post).AppDataBuffer.take 3 =
      [5, 7, 2] := by
  have hre : Reachable c3post := ⟨[enterEv, lcEv, c3ev], rfl⟩
  have hlen : c3post.AppDataBuffer.length = 242 := (goodCtx_reachable c3post hre).1
  refine ⟨⟨[enterEv, lcEv], rfl⟩, rfl, rfl, by decide, by decide, by decide,
    by decide, ?_⟩
  rw [show c3post.AppPort = 224 from by decide]
  unfold PrepareTxFrame
  rw [if_neg (by decide), if_pos rfl, if_pos (by decide)]
  rw [show c3post.ComplianceTest.DemodMargin = 7 from by decide,
    show c3post.ComplianceTest.NbGateways = 2 from by decide]
  exact take_three_set c3post.AppDataBuffer (by omega) 5 7 2

set_option maxHeartbeats 1600000 in
/-- C3 (amended): a port-224 downlink [b0, ..., bn] with b0 = 4 received
while the compliance engine is active writes [4, b1+1, ..., bn+1] (bytes
wrapping mod 256) into the first min(n+1, 242) payload cells, leaves higher
cells untouched, but records the payload length as the received size, which
can exceed 242; the next prepared uplink carries this payload only when no
link-check result is latched (and then moves the step to 1). -/
theorem C3_echo_transform (s : DeviceCtx) (hs : Reachable s)
    (hrun : s.ComplianceTest.Running = true)
    (buf : List Nat) (hb0 : buf.getD 0 0 = 4) (hblen : buf.length ≤ 255)
    (fp : Bool) (o : TimerOracle) (j : LoRaMacStatus) (s1 : DeviceCtx)
    (hs1 : s1 = step (Event.mcpsInd EventInfoStatus.OK fp true 224 buf o j) s) :
    s1.AppDataSize = buf.length ∧
    s1.AppDataBuffer.take (min buf.length 242) =
      (4 :: (buf.drop 1).map (fun v => (v + 1) % 256)).take (min buf.length 242) ∧
    (∀ i, min buf.length 242 ≤ i →
      s1.AppDataBuffer.getD i 0 = s.AppDataBuffer.getD i 0) ∧
    s1.ComplianceTest.LinkCheck = s.ComplianceTest.LinkCheck ∧
    (s.ComplianceTest.LinkCheck = false → ∀ o2 : MainOracle,
      (PrepareTxFrame o2 s1.AppPort s1).AppDataSize = buf.length ∧
      (PrepareTxFrame o2 s1.AppPort s1).AppDataBuffer = s1.AppDataBuffer ∧
      (PrepareTxFrame o2 s1.AppPort s1).ComplianceTest.State = 1) := by
  obtain ⟨g1, g2, g3, g4, g5, g6⟩ := goodCtx_reachable s hs
  have hport : s.AppPort = 224 := g4 hrun
  have hlen1 : 1 ≤ buf.length := by
    cases buf with
    | nil => simp at hb0
    | cons a t => simp
  have hmin1 : 1 ≤ min buf.length 242 := le_min hlen1 (by norm_num)
  obtain ⟨hf1, hf2, hf3, hf4, hf5, hf6⟩ := framePendingPhase_shared fp o s
  have hr1 : (framePendingPhase fp o s).ComplianceTest.Running = true := by
    rw [hf6]; exact hrun
  obtain ⟨hd1, hd2, hd3, hd4, hd5, hd6, hd7, hd8, hd9, hd10⟩ :=
    downlinkCounterPhase_proj (framePendingPhase fp o s)
  have hr2 : (downlinkCounterPhase (framePendingPhase fp o s)).ComplianceTest.Running
      = true := by rw [hd6]; exact hr1
  have hbuf2 : (downlinkCounterPhase (framePendingPhase fp o s)).AppDataBuffer
      = s.AppDataBuffer := by rw [hd4, hf4]
  have hport2 : (downlinkCounterPhase (framePendingPhase fp o s)).AppPort
      = s.AppPort := by rw [hd1, hf1]
  have hlc2 : (downlinkCounterPhase (framePendingPhase fp o s)).ComplianceTest.LinkCheck
      = s.ComplianceTest.LinkCheck := by rw [hd8, hf6]
  have hstep2 : s1 =
      { downlinkCounterPhase (framePendingPhase fp o s) with
          AppDataSize := buf.length,
          AppDataBuffer := echoLoop buf (min buf.length 242) 1
            ((downlinkCounterPhase (framePendingPhase fp o s)).AppDataBuffer.set 0 4),
          ComplianceTest :=
            { (downlinkCounterPhase (framePendingPhase fp o s)).ComplianceTest with
                State := 4 } } := by
    rw [hs1]
    simp only [step]
    unfold McpsIndicationStep
    rw [if_neg (by decide)]
    unfold rxDataPhase
    rw [if_pos rfl, if_neg (by decide), if_pos rfl]
    unfold complianceDownlink
    rw [if_neg (by simp [hr2]), hb0]
    unfold complianceCommand
    rw [if_neg (by decide), if_neg (by decide), if_neg (by decide),
      if_neg (by decide), if_pos rfl]
  have hsz : s1.AppDataSize = buf.length := by rw [hstep2]
  have hbb : s1.AppDataBuffer =
      echoLoop buf (min buf.length 242) 1 (s.AppDataBuffer.set 0 4) := by
    rw [hstep2, hbuf2]
  have hlc1 : s1.ComplianceTest.LinkCheck = s.ComplianceTest.LinkCheck := by
    rw [hstep2]
    exact hlc2
  have hp1 : s1.AppPort = 224 := by
    rw [hstep2]
    exact hport2.trans hport
  have hst1 : s1.ComplianceTest.State = 4 := by rw [hstep2]
  refine ⟨hsz, ?_, ?_, hlc1, ?_⟩
  · rw [hbb]
    exact echoLoop_take buf s.AppDataBuffer (min buf.length 242) hmin1
      (by rw [g1]; exact min_le_right _ _) (min_le_left _ _)
  · intro i hi
    rw [hbb]
    have hstop : min buf.length 242 ≤ (s.AppDataBuffer.set 0 4).length := by
      rw [List.length_set, g1]
      exact min_le_right _ _
    rw [echoLoop_getD buf (min buf.length 242) 1 i _ hstop]
    have hi1 : 1 ≤ i := le_trans hmin1 hi
    rw [if_neg (by intro hc; exact absurd hc.2 (not_lt.mpr hi))]
    rw [getD_set_eq_ite]
    rw [if_neg (by intro hc; omega)]
  · intro hlcf o2
    rw [hp1]
    unfold PrepareTxFrame
    rw [if_neg (by decide), if_pos rfl, if_neg (by simp [hlc1, hlcf]),
      if_pos hst1]
    exact ⟨hsz, rfl, rfl⟩

theorem C3_echo_transform_witness :
    (step (Event.mcpsInd EventInfoStatus.OK false true 224 [4, 10, 255] timer0
        LoRaMacStatus.OK) enteredState).AppDataSize =
      ([4, 10, 255] : List Nat).length ∧
    (step (Event.mcpsInd EventInfoStatus.OK false true 224 [4, 10, 255] timer0
        LoRaMacStatus.OK) enteredState).AppDataBuffer.take
        (min ([4, 10, 255] : List Nat).length 242) =
      (4 :: (([4, 10, 255] : List Nat).drop 1).map (fun v => (v + 1) % 256)).take
        (min ([4, 10, 255] : List Nat).length 242) ∧
    (∀ i, min ([4, 10, 255] : List Nat).length 242 ≤ i →
      (step (Event.mcpsInd EventInfoStatus.OK false true 224 [4, 10, 255] timer0
          LoRaMacStatus.OK) enteredState).AppDataBuffer.getD i 0 =
        enteredState.AppDataBuffer.getD i 0) ∧
    (step (Event.mcpsInd EventInfoStatus.OK false true 224 [4, 10, 255] timer0
        LoRaMacStatus.OK) enteredState).ComplianceTest.LinkCheck =
      enteredState.ComplianceTest.LinkCheck ∧
    (enteredState.ComplianceTest.LinkCheck = false → ∀ o2 : MainOracle,
      (PrepareTxFrame o2
          (step (Event.mcpsInd EventInfoStatus.OK false true 224 [4, 10, 255]
            timer0 LoRaMacStatus.OK) enteredState).AppPort
          (step (Event.mcpsInd EventInfoStatus.OK false true 224 [4, 10, 255]
            timer0 LoRaMacStatus.OK) enteredState)).AppDataSize =
        ([4, 10, 255] : List Nat).length ∧
      (PrepareTxFrame o2
          (step (Event.mcpsInd EventInfoStatus.OK false true 224 [4, 10, 255]
            timer0 LoRaMacStatus.OK) enteredState).AppPort
          (step (Event.mcpsInd EventInfoStatus.OK false true 224 [4, 10, 255]
            timer0 LoRaMacStatus.OK) enteredState)).AppDataBuffer =
        (step (Event.mcpsInd EventInfoStatus.OK false true 224 [4, 10, 255]
          timer0 LoRaMacStatus.OK) enteredState).AppDataBuffer ∧
      (PrepareTxFrame o2
          (step (Event.mcpsInd EventInfoStatus.OK false true 224 [4, 10, 255]
            timer0 LoRaMacStatus.OK) enteredState).AppPort
          (step (Event.mcpsInd EventInfoStatus.OK false true 224 [4, 10, 255]
            timer0 LoRaMacStatus.OK) enteredState)).ComplianceTest.State = 1) :=
  C3_echo_transform enteredState ⟨[enterEv], rfl⟩ rfl [4, 10, 255] rfl
    (by decide) false timer0 LoRaMacStatus.OK _ rfl
